import Mathlib

/-!
Shallow embedding of the simulation orchestration engine of the source
repository (main component file: the `ProjectLoomApp` React component).

The embedding covers the parts the verification claims are about:

* the Prompt Builder (`buildSystemPrompt`),
* the Model Adapter layer (`callOpenAI`, `callClaude`, `callRealAI`,
  `getSimulatedResponse`),
* the Turn Engine (`simulateAIResponse`, `handleAutoLoop`,
  `handleManualTurn`, `handleUserMessage`, `startSimulation`,
  `stopSimulation`, the Back-button handler `backOut`),
* the transcript export (`exportChat`), modelled at the level of the JSON
  document tree produced by `JSON.stringify`.

Modelling conventions:

* JS strings are `String`; absent/`undefined` optional string fields are
  the empty string (both are falsy in the JS conditions that guard them).
* `Date.now()` identifiers, `toLocaleTimeString()` timestamps, the network
  outcome of a `fetch`, and the `Math.random()` draw used by
  `getSimulatedResponse` are supplied by the caller as explicit data
  (`TurnEnv`), one per attempted turn; `Math.floor(Math.random()*5)` is
  modelled as `rand % 5`.
* A `fetch` call is recorded as a `NetRequest` value; every adapter
  function returns the list of requests it issued, so "no network call"
  is the statement that this list is empty.
* The asynchronous auto-loop is single-threaded (event-loop style); its
  cooperative cancellation flag `simulationRunningRef.current` is modelled
  by a threshold `cancelAfter : Option Nat`: the flag reads `true` at a
  poll point iff fewer than `cancelAfter` turns of the run have completed
  (`none` = never cancelled).  This is exactly a monotone stop signal, the
  situation the cancellation claims describe.
-/

/-- A trait assignment as built by `handleTraitToggle`:
`{ name: trait, category, intensity }`. -/
structure PersonaTrait where
  category : String
  name : String
  intensity : String
deriving DecidableEq

/-- A file reference kept on a persona (`{ name: f.name, size: f.size }`). -/
structure FileRef where
  name : String
  size : Nat
deriving DecidableEq

/-- A persona as built by the persona-authoring flow
(`newPersona = { name, llm, role, knowledge_hub, traits, files }`).
The `wordLimit` field models the JS property read `persona.wordLimit`
in the adapters: personas built by the authoring flow do not carry the
property, so for them it is `none` (JS `undefined`). -/
structure Persona where
  name : String
  llm : String
  role : String
  knowledgeHub : String
  traits : List PersonaTrait
  wordLimit : Option Nat
  files : List FileRef
deriving DecidableEq

/-- An environment as built by the environment-authoring flow
(`formData = { name, description, participants, interactionMode,
wordLimit, linkedEnvironment, startingPrompt, humanModerator }`). -/
structure Environment where
  name : String
  description : String
  participants : List Persona
  interactionMode : String
  wordLimit : Nat
  linkedEnvironment : String
  startingPrompt : String
  humanModerator : Bool
deriving DecidableEq

/-- A transcript message.  The three constructors mirror the three object
shapes the code appends to `localChatHistory`:
`{id, type:'system', content, timestamp}` (seed message in
`startSimulation`), `{id, type:'user', content, timestamp}`
(`handleUserMessage`), and
`{id, type:'ai', persona, content, timestamp, llm, isRealAI}`
(`simulateAIResponse`). -/
inductive Message where
  | system (id : Nat) (content : String) (timestamp : String)
  | user (id : Nat) (content : String) (timestamp : String)
  | ai (id : Nat) (persona : String) (content : String) (timestamp : String)
      (llm : String) (isRealAI : Bool)
deriving DecidableEq

/-- `message.content`. -/
def Message.content : Message → String
  | .system _ c _ => c
  | .user _ c _ => c
  | .ai _ _ c _ _ _ => c

/-- `message.type === 'system'`. -/
def Message.isSystemMsg : Message → Bool
  | .system .. => true
  | _ => false

/-- The persona name of an agent (`type:'ai'`) message, `none` otherwise. -/
def Message.agentAuthor : Message → Option String
  | .ai _ n _ _ _ _ => some n
  | _ => none

/-- The `isRealAI` flag of an agent message, `none` otherwise. -/
def Message.liveFlag : Message → Option Bool
  | .ai _ _ _ _ _ b => some b
  | _ => none

/-- The role under which a history message is replayed to a provider:
`msg.type === 'user' ? 'user' : 'assistant'`. -/
def Message.requestRole : Message → String
  | .user .. => "user"
  | _ => "assistant"

/-- The `apiKeys` state: `{ openai: '', claude: '' }`; an unconfigured key
is the empty string (falsy). -/
structure ApiKeys where
  openai : String
  claude : String
deriving DecidableEq

/-- The per-turn ambient data consumed by one attempted turn: the outcome
of the (potential) network call (`Except.error e` = non-2xx response with
resolved upstream message `e`, `Except.ok body` = generated text), the
`Math.random()` draw feeding `getSimulatedResponse`, and the
`Date.now()` / `toLocaleTimeString()` values of the appended message. -/
structure TurnEnv where
  net : Except String String
  rand : Nat
  msgId : Nat
  timestamp : String

/-- One outbound provider request, as assembled in the body of a `fetch`:
the endpoint, the `max_tokens` parameter, the system prompt and the
replayed history. -/
structure NetRequest where
  url : String
  maxTokens : Nat
  systemPrompt : String
  chat : List (String × String)
deriving DecidableEq

/-- JS `x || d` on the optional numeric property read `persona.wordLimit`
(`undefined` and `0` are falsy). -/
def jsOrDefault (w : Option Nat) (d : Nat) : Nat :=
  match w with
  | none => d
  | some n => if n = 0 then d else n

/-- The adverb chosen for a trait intensity:
`{'Weak':'slightly','Neutral':'moderately','Strong':'very'}[i] || 'moderately'`. -/
def intensityAdverb (intensity : String) : String :=
  if intensity = "Weak" then "slightly"
  else if intensity = "Neutral" then "moderately"
  else if intensity = "Strong" then "very"
  else "moderately"

/-- JS `.toLowerCase()`, character by character (the trait names are
ASCII). -/
def strToLower (s : String) : String := ⟨s.data.map Char.toLower⟩

/-- One line of the trait block:
``- ${intensityDesc[trait.intensity] || 'moderately'} ${trait.name.toLowerCase()}\n``. -/
def renderTrait (t : PersonaTrait) : String :=
  "- " ++ intensityAdverb t.intensity ++ " " ++ strToLower t.name ++ "\n"

/-- The `forEach` over `persona.traits`. -/
def traitLines : List PersonaTrait → String
  | [] => ""
  | t :: rest => renderTrait t ++ traitLines rest

/-- The trait section, guarded by
`if (persona.traits && persona.traits.length > 0)`. -/
def traitBlock (traits : List PersonaTrait) : String :=
  if traits.isEmpty then ""
  else "Your personality traits:\n" ++ traitLines traits ++ "\n"

/-- The knowledge section, guarded by `if (persona.knowledgeHub)`. -/
def knowledgeBlock (knowledgeHub : String) : String :=
  if knowledgeHub = "" then ""
  else "Background and Knowledge:\n" ++ knowledgeHub ++ "\n\n"

/-- The closing character-adherence instruction of the prompt. -/
def closingInstruction (persona : Persona) : String :=
  "IMPORTANT: Stay in character as " ++ persona.name ++
    ". Respond based on your traits, role, and background. Keep responses conversational and authentic to your personality."

/-- `buildSystemPrompt(persona)`. -/
def buildSystemPrompt (persona : Persona) : String :=
  "You are " ++ persona.name ++ ", " ++ persona.role ++ "\n\n"
    ++ traitBlock persona.traits
    ++ knowledgeBlock persona.knowledgeHub
    ++ closingInstruction persona

/-- The fixed five-entry filler set of `getSimulatedResponse`. -/
def simulatedResponses (p : Persona) : List String :=
  [ "As " ++ p.name ++ ", given my role as " ++ p.role ++
      ", I think we should approach this systematically. My experience tells me that this situation requires careful consideration of all stakeholders involved."
  , "Speaking from my perspective as " ++ p.role ++
      ", I'd like to challenge some assumptions here. We're looking at this from a narrow perspective, and I believe we need to expand our thinking beyond conventional solutions."
  , "I appreciate the different viewpoints being shared. From my analytical perspective, I see several patterns emerging that we should address. Let me break down what I'm observing and propose a path forward."
  , "This reminds me of a similar situation I encountered before. The key insight I gained was that sustainable solutions often require us to balance competing priorities rather than choosing sides."
  , "I'm curious about the underlying motivations here. If we dig deeper into the 'why' behind these surface-level issues, I think we'll find more creative and effective approaches to resolution." ]

/-- `getSimulatedResponse(persona)`:
`responses[Math.floor(Math.random() * responses.length)]`, with the random
draw supplied as `r`. -/
def getSimulatedResponse (p : Persona) (r : Nat) : String :=
  (simulatedResponses p).getD (r % 5) ""

/-- `callOpenAI(messages, persona)`: fails immediately when no key is
configured; otherwise issues one request (`max_tokens:
persona.wordLimit || 200`) and either returns the generated text or fails
with `OpenAI API Error: <upstream message>` on a non-2xx response. -/
def callOpenAI (keys : ApiKeys) (messages : List Message) (persona : Persona)
    (net : Except String String) : Except String String × List NetRequest :=
  if keys.openai = "" then
    (Except.error "OpenAI API key not configured", [])
  else
    let req : NetRequest :=
      { url := "https://api.openai.com/v1/chat/completions"
      , maxTokens := jsOrDefault persona.wordLimit 200
      , systemPrompt := buildSystemPrompt persona
      , chat := messages.map (fun m => (m.requestRole, m.content)) }
    match net with
    | Except.error e => (Except.error ("OpenAI API Error: " ++ e), [req])
    | Except.ok body => (Except.ok body, [req])

/-- `callClaude(messages, persona)`: same shape against the Anthropic
endpoint. -/
def callClaude (keys : ApiKeys) (messages : List Message) (persona : Persona)
    (net : Except String String) : Except String String × List NetRequest :=
  if keys.claude = "" then
    (Except.error "Claude API key not configured", [])
  else
    let req : NetRequest :=
      { url := "https://api.anthropic.com/v1/messages"
      , maxTokens := jsOrDefault persona.wordLimit 200
      , systemPrompt := buildSystemPrompt persona
      , chat := messages.map (fun m => (m.requestRole, m.content)) }
    match net with
    | Except.error e => (Except.error ("Claude API Error: " ++ e), [req])
    | Except.ok body => (Except.ok body, [req])

/-- `callRealAI(persona, conversationHistory)`: dispatches on
`persona.llm`; any error thrown by the provider call is caught inside
this function and converted into a fallback string
``[name]: <error>. Falling back to simulated response: <filler>``;
an unrecognised selector returns a plain simulated response. -/
def callRealAI (keys : ApiKeys) (persona : Persona) (history : List Message)
    (ev : TurnEnv) : String × List NetRequest :=
  if persona.llm = "ChatGPT (OpenAI)" then
    let res := callOpenAI keys history persona ev.net
    match res.1 with
    | Except.ok r => (r, res.2)
    | Except.error e =>
        ("[" ++ persona.name ++ "]: " ++ e ++
          ". Falling back to simulated response: " ++
          getSimulatedResponse persona ev.rand, res.2)
  else if persona.llm = "Claude (Anthropic)" then
    let res := callClaude keys history persona ev.net
    match res.1 with
    | Except.ok r => (r, res.2)
    | Except.error e =>
        ("[" ++ persona.name ++ "]: " ++ e ++
          ". Falling back to simulated response: " ++
          getSimulatedResponse persona ev.rand, res.2)
  else
    (getSimulatedResponse persona ev.rand, [])

/-- `simulateAIResponse(persona)`: one attempted turn.  Filters the system
messages out of the history, dispatches to `callRealAI` when the matching
key is configured (tagging `isRealAI: true`), otherwise appends a
simulated response tagged `isRealAI: false`.  Since `callRealAI` never
throws (it catches internally), the `catch` branch of the source that
would tag a failure `isRealAI: false` is unreachable and has no
counterpart here.  Returns the single appended message and the issued
requests. -/
def simulateAIResponse (keys : ApiKeys) (history : List Message)
    (persona : Persona) (ev : TurnEnv) : Message × List NetRequest :=
  let context := history.filter (fun m => !m.isSystemMsg)
  if keys.openai ≠ "" ∧ persona.llm = "ChatGPT (OpenAI)" then
    let res := callRealAI keys persona context ev
    (Message.ai ev.msgId persona.name res.1 ev.timestamp persona.llm true, res.2)
  else if keys.claude ≠ "" ∧ persona.llm = "Claude (Anthropic)" then
    let res := callRealAI keys persona context ev
    (Message.ai ev.msgId persona.name res.1 ev.timestamp persona.llm true, res.2)
  else
    (Message.ai ev.msgId persona.name (getSimulatedResponse persona ev.rand)
      ev.timestamp persona.llm false, [])

/-- The state local to the `Simulation` component that the engine reads
and writes: the selected environment, the transcript
(`localChatHistory`), the in-flight guard (`isProcessing`) and the
auto-loop run flag (`isSimulationRunning`, mirrored by
`simulationRunningRef.current`), together with the global `apiKeys`. -/
structure SimState where
  apiKeys : ApiKeys
  selectedEnvironment : Option Environment
  localChatHistory : List Message
  isProcessing : Bool
  isSimulationRunning : Bool
deriving DecidableEq

/-- `startSimulation(environment)`: selects the environment, clears the
transcript, and seeds it with one system message when
`environment.startingPrompt` is set. -/
def startSimulation (st : SimState) (env : Environment) (msgId : Nat)
    (ts : String) : SimState :=
  { st with
    selectedEnvironment := some env
    localChatHistory :=
      if env.startingPrompt = "" then []
      else [Message.system msgId env.startingPrompt ts] }

/-- `handleUserMessage()`: appends one user message unless the draft is
blank after trimming.  The draft text is passed in explicitly. -/
def handleUserMessage (st : SimState) (userMessage : String) (msgId : Nat)
    (ts : String) : SimState :=
  if userMessage.trim = "" then st
  else
    { st with
      localChatHistory :=
        st.localChatHistory ++ [Message.user msgId userMessage ts] }

/-- One completed turn at the state level: run `simulateAIResponse` on the
current transcript, append its message, and leave `isProcessing` back at
`false` (the source sets it `true` on entry and `false` before
returning). -/
def turnStep (st : SimState) (persona : Persona) (ev : TurnEnv) :
    SimState × List NetRequest :=
  let res := simulateAIResponse st.apiKeys st.localChatHistory persona ev
  ({ st with
      localChatHistory := st.localChatHistory ++ [res.1]
      isProcessing := false }, res.2)

/-- `handleManualTurn(persona)`: a no-op while a turn is in flight
(`if (isProcessing) return`), otherwise one turn. -/
def handleManualTurn (st : SimState) (persona : Persona) (ev : TurnEnv) :
    SimState × List NetRequest :=
  if st.isProcessing then (st, [])
  else turnStep st persona ev

/-- `stopSimulation()`. -/
def stopSimulation (st : SimState) : SimState :=
  { st with isSimulationRunning := false, isProcessing := false }

/-- The Back button of the simulation view: deselects the environment,
clears the transcript, stops the run. -/
def backOut (st : SimState) : SimState :=
  { st with
    selectedEnvironment := none
    localChatHistory := []
    isSimulationRunning := false }

/-- `maxRounds` of `handleAutoLoop`. -/
def maxRounds : Nat := 5

/-- The value `simulationRunningRef.current` reads at a poll point of the
auto-loop, as a function of the number of turns of the run completed so
far: `true` while fewer than `cancelAfter` turns are done (`none`:
`stopSimulation` is never called during the run). -/
def flagAt (cancelAfter : Option Nat) (turnsDone : Nat) : Bool :=
  match cancelAfter with
  | none => true
  | some c => decide (turnsDone < c)

/-- The `for` loop of one round of `runNextTurn`: polls the run flag
before each participant's turn (`if (!simulationRunningRef.current)
break`), runs the turn, and polls again after it.  Threads the transcript,
the count of completed turns of the run, and the issued requests. -/
def autoRound (keys : ApiKeys) (cancelAfter : Option Nat)
    (evs : Nat → TurnEnv) :
    List Persona → List Message → Nat → List NetRequest →
      List Message × Nat × List NetRequest
  | [], hist, done, reqs => (hist, done, reqs)
  | p :: rest, hist, done, reqs =>
    if flagAt cancelAfter done then
      let res := simulateAIResponse keys hist p (evs done)
      if flagAt cancelAfter (done + 1) then
        autoRound keys cancelAfter evs rest (hist ++ [res.1]) (done + 1)
          (reqs ++ res.2)
      else (hist ++ [res.1], done + 1, reqs ++ res.2)
    else (hist, done, reqs)

/-- `runNextTurn()`: polls the run flag at round entry, stops at the round
budget, runs one round, and re-schedules itself while the flag holds and
rounds remain.  The recursion is fuelled; `handleAutoLoop` passes
`maxRounds`, which bounds the recursion depth of the source. -/
def runNextTurn (keys : ApiKeys) (cancelAfter : Option Nat)
    (evs : Nat → TurnEnv) (parts : List Persona) :
    Nat → Nat → List Message → Nat → List NetRequest →
      List Message × Nat × List NetRequest
  | 0, _, hist, done, reqs => (hist, done, reqs)
  | fuel + 1, round, hist, done, reqs =>
    if flagAt cancelAfter done then
      if maxRounds ≤ round then (hist, done, reqs)
      else
        let step := autoRound keys cancelAfter evs parts hist done reqs
        if flagAt cancelAfter step.2.1 ∧ round + 1 < maxRounds then
          runNextTurn keys cancelAfter evs parts fuel (round + 1) step.1
            step.2.1 step.2.2
        else step
    else (hist, done, reqs)

/-- `handleAutoLoop()`: guarded by
`if (!selectedEnvironment || isProcessing) return`, then runs the round
loop from `currentRound = 0`; every exit path of the loop leaves the run
flag cleared. -/
def handleAutoLoop (st : SimState) (cancelAfter : Option Nat)
    (evs : Nat → TurnEnv) : SimState × List NetRequest :=
  match st.selectedEnvironment with
  | none => (st, [])
  | some env =>
    if st.isProcessing then (st, [])
    else
      let res := runNextTurn st.apiKeys cancelAfter evs env.participants
        maxRounds 0 st.localChatHistory 0 []
      ({ st with
          localChatHistory := res.1
          isProcessing := false
          isSimulationRunning := false }, res.2.2)

/-- The JSON document tree `JSON.stringify` serialises: strings, numbers
(only naturals occur here), booleans, null, arrays and objects with
ordered fields. -/
inductive Json where
  | str (s : String)
  | num (n : Nat)
  | bool (b : Bool)
  | null
  | arr (elems : List Json)
  | obj (fields : List (String × Json))

/-- The JSON object a transcript message serialises to, field for field in
the order the source object literals build them. -/
def encodeMessage : Message → Json
  | .system id c ts =>
      Json.obj [("id", Json.num id), ("type", Json.str "system"),
        ("content", Json.str c), ("timestamp", Json.str ts)]
  | .user id c ts =>
      Json.obj [("id", Json.num id), ("type", Json.str "user"),
        ("content", Json.str c), ("timestamp", Json.str ts)]
  | .ai id pn c ts llm live =>
      Json.obj [("id", Json.num id), ("type", Json.str "ai"),
        ("persona", Json.str pn), ("content", Json.str c),
        ("timestamp", Json.str ts), ("llm", Json.str llm),
        ("isRealAI", Json.bool live)]

/-- Reading a message back out of its parsed JSON object. -/
def decodeMessage : Json → Option Message
  | Json.obj [("id", Json.num id), ("type", Json.str "system"),
      ("content", Json.str c), ("timestamp", Json.str ts)] =>
      some (Message.system id c ts)
  | Json.obj [("id", Json.num id), ("type", Json.str "user"),
      ("content", Json.str c), ("timestamp", Json.str ts)] =>
      some (Message.user id c ts)
  | Json.obj [("id", Json.num id), ("type", Json.str "ai"),
      ("persona", Json.str pn), ("content", Json.str c),
      ("timestamp", Json.str ts), ("llm", Json.str llm),
      ("isRealAI", Json.bool live)] =>
      some (Message.ai id pn c ts llm live)
  | _ => none

/-- Reading a message array back. -/
def decodeMessages : List Json → Option (List Message)
  | [] => some []
  | j :: rest =>
    match decodeMessage j, decodeMessages rest with
    | some m, some ms => some (m :: ms)
    | _, _ => none

/-- Field lookup in a parsed JSON object. -/
def lookupField : List (String × Json) → String → Option Json
  | [], _ => none
  | (k, v) :: rest, key => if k = key then some v else lookupField rest key

/-- `json.key` on a parsed document. -/
def Json.getField (j : Json) (key : String) : Option Json :=
  match j with
  | Json.obj fields => lookupField fields key
  | _ => none

/-- `exportChat()`: the `chatData` document
`{environment, participants, messages, exportedAt}` handed to
`JSON.stringify` (the environment is selected whenever the export button
is reachable). -/
def exportChat (env : Environment) (history : List Message)
    (exportedAt : String) : Json :=
  Json.obj
    [ ("environment", Json.str env.name)
    , ("participants", Json.arr (env.participants.map (fun p => Json.str p.name)))
    , ("messages", Json.arr (history.map encodeMessage))
    , ("exportedAt", Json.str exportedAt) ]

/-- Substring containment witnessed by an explicit split. -/
def strContainsE (s sub : String) : Prop :=
  ∃ a b, s = a ++ sub ++ b

/-- Substring containment at the character-list level (decidable). -/
def strContains (s sub : String) : Prop :=
  sub.data <:+: s.data

instance (s sub : String) : Decidable (strContains s sub) := by
  unfold strContains; exact List.decidableInfix sub.data s.data

/-! ### String containment helpers -/

theorem strContains_intro {s sub : String} (a b : String)
    (h : s = a ++ sub ++ b) : strContains s sub := by
  refine ⟨a.data, b.data, ?_⟩
  rw [h, String.data_append, String.data_append]

theorem strContains_refl (s : String) : strContains s s :=
  ⟨[], [], by simp⟩

theorem strContains_trans {s t u : String} (h₁ : strContains s t)
    (h₂ : strContains t u) : strContains s u := h₂.trans h₁

theorem strContains_append_left (a : String) {s sub : String}
    (h : strContains s sub) : strContains (a ++ s) sub := by
  obtain ⟨x, y, hxy⟩ := h
  exact ⟨a.data ++ x, y, by rw [String.data_append, ← hxy]; simp⟩

theorem strContains_append_right (b : String) {s sub : String}
    (h : strContains s sub) : strContains (s ++ b) sub := by
  obtain ⟨x, y, hxy⟩ := h
  exact ⟨x, y ++ b.data, by rw [String.data_append, ← hxy]; simp⟩

theorem strContains_of_middle {sub mid : String} (pre post : String)
    (h : strContains mid sub) : strContains (pre ++ mid ++ post) sub :=
  strContains_append_right post (strContains_append_left pre h)

/-! ### Prompt Builder lemmas -/

theorem renderTrait_contains (t : PersonaTrait) :
    strContains (renderTrait t)
      (intensityAdverb t.intensity ++ " " ++ strToLower t.name) :=
  strContains_intro "- " "\n" (by simp [renderTrait, String.append_assoc])

theorem traitLines_contains {t : PersonaTrait} {ts : List PersonaTrait}
    (h : t ∈ ts) : strContains (traitLines ts) (renderTrait t) := by
  induction ts with
  | nil => cases h
  | cons t' rest ih =>
    simp only [traitLines]
    rcases List.mem_cons.mp h with h' | h'
    · subst h'
      exact strContains_append_right _ (strContains_refl _)
    · exact strContains_append_left _ (ih h')

theorem buildSystemPrompt_eq (p : Persona) :
    buildSystemPrompt p
      = ("You are " ++ p.name ++ ", " ++ p.role ++ "\n\n")
          ++ (traitBlock p.traits
              ++ (knowledgeBlock p.knowledgeHub ++ closingInstruction p)) := by
  simp [buildSystemPrompt, String.append_assoc]

/-- C5: `buildSystemPrompt` renders the identity line as a prefix, one
adverb-plus-lowercased-name phrase per trait assignment, the adverb map
with unknown intensities defaulting to "moderately", the knowledge text
verbatim when present, and the closing character-adherence instruction;
with no traits (resp. no knowledge) the corresponding section, header
included, is absent from the output. -/
theorem C5_buildSystemPrompt_contract (p : Persona) :
    (∃ rest, buildSystemPrompt p
        = "You are " ++ p.name ++ ", " ++ p.role ++ rest) ∧
    (∀ t ∈ p.traits, strContains (buildSystemPrompt p)
        (intensityAdverb t.intensity ++ " " ++ strToLower t.name)) ∧
    intensityAdverb "Weak" = "slightly" ∧
    intensityAdverb "Neutral" = "moderately" ∧
    intensityAdverb "Strong" = "very" ∧
    (∀ i, i ≠ "Weak" → i ≠ "Neutral" → i ≠ "Strong" →
        intensityAdverb i = "moderately") ∧
    (p.knowledgeHub ≠ "" → strContains (buildSystemPrompt p) p.knowledgeHub) ∧
    strContains (buildSystemPrompt p) (closingInstruction p) ∧
    (p.traits = [] → buildSystemPrompt p
        = "You are " ++ p.name ++ ", " ++ p.role ++ "\n\n"
            ++ knowledgeBlock p.knowledgeHub ++ closingInstruction p) ∧
    (p.knowledgeHub = "" → buildSystemPrompt p
        = "You are " ++ p.name ++ ", " ++ p.role ++ "\n\n"
            ++ traitBlock p.traits ++ closingInstruction p) := by
  refine ⟨⟨"\n\n" ++ (traitBlock p.traits
      ++ (knowledgeBlock p.knowledgeHub ++ closingInstruction p)), ?_⟩,
    ?_, rfl, rfl, rfl, ?_, ?_, ?_, ?_, ?_⟩
  · rw [buildSystemPrompt_eq]
    simp [String.append_assoc]
  · intro t ht
    have htraits : ¬ p.traits.isEmpty := by
      cases hts : p.traits with
      | nil => rw [hts] at ht; cases ht
      | cons a l => simp [hts]
    have hblock : traitBlock p.traits
        = "Your personality traits:\n" ++ traitLines p.traits ++ "\n" := by
      simp [traitBlock, htraits]
    have hcore : strContains (traitBlock p.traits)
        (intensityAdverb t.intensity ++ " " ++ strToLower t.name) := by
      rw [hblock]
      exact strContains_of_middle _ _
        (strContains_trans (traitLines_contains ht) (renderTrait_contains t))
    rw [buildSystemPrompt_eq]
    exact strContains_append_left _ (strContains_append_right _ hcore)
  · intro i h1 h2 h3
    simp [intensityAdverb, h1, h2, h3]
  · intro hk
    have hkb : knowledgeBlock p.knowledgeHub
        = "Background and Knowledge:\n" ++ p.knowledgeHub ++ "\n\n" := by
      simp [knowledgeBlock, hk]
    rw [buildSystemPrompt_eq]
    refine strContains_append_left _ (strContains_append_left _
      (strContains_append_right _ ?_))
    rw [hkb]
    exact strContains_of_middle _ _ (strContains_refl _)
  · rw [buildSystemPrompt_eq]
    exact strContains_append_left _ (strContains_append_left _
      (strContains_append_left _ (strContains_refl _)))
  · intro hts
    simp [buildSystemPrompt, traitBlock, hts]
  · intro hk
    simp [buildSystemPrompt, knowledgeBlock, hk]

/-- A concrete persona exercising every branch of the C5 contract. -/
def cCalmPersona : Persona :=
  { name := "Alice"
  , llm := "ChatGPT (OpenAI)"
  , role := "engineer"
  , knowledgeHub := "Knows space facts."
  , traits := [⟨"Emotional Tone", "Calm", "Strong"⟩,
               ⟨"Personality Type", "Cynical", "Odd"⟩]
  , wordLimit := none
  , files := [] }

/-- Witness for C5 at a concrete persona: the hypothesised conjuncts are
discharged at `cCalmPersona`. -/
theorem C5_witness :
    strContains (buildSystemPrompt cCalmPersona) ("very" ++ " " ++ strToLower "Calm") ∧
    strContains (buildSystemPrompt cCalmPersona) ("moderately" ++ " " ++ strToLower "Cynical") ∧
    strContains (buildSystemPrompt cCalmPersona) "Knows space facts." ∧
    intensityAdverb "Odd" = "moderately" := by
  refine ⟨?_, ?_, ?_, ?_⟩
  · exact (C5_buildSystemPrompt_contract cCalmPersona).2.1
      ⟨"Emotional Tone", "Calm", "Strong"⟩ (by simp [cCalmPersona])
  · exact (C5_buildSystemPrompt_contract cCalmPersona).2.1
      ⟨"Personality Type", "Cynical", "Odd"⟩ (by simp [cCalmPersona])
  · exact (C5_buildSystemPrompt_contract cCalmPersona).2.2.2.2.2.2.1 (by decide)
  · exact (C5_buildSystemPrompt_contract cCalmPersona).2.2.2.2.2.1 "Odd"
      (by decide) (by decide) (by decide)

/-- C9: with no credential configured for the selected provider, the
adapter fails immediately with the credential-missing error and issues no
network request. -/
theorem C9_missing_key_fails_without_network (c o : String)
    (messages : List Message) (persona : Persona)
    (net : Except String String) :
    callOpenAI ⟨"", c⟩ messages persona net
        = (Except.error "OpenAI API key not configured", []) ∧
    callClaude ⟨o, ""⟩ messages persona net
        = (Except.error "Claude API key not configured", []) :=
  ⟨rfl, rfl⟩

/-- C6: a manual-mode turn request while a turn is in flight is a no-op:
the state (transcript included) is unchanged and no request is issued. -/
theorem C6_manual_turn_noop_when_processing (st : SimState)
    (persona : Persona) (ev : TurnEnv) (h : st.isProcessing = true) :
    handleManualTurn st persona ev = (st, []) := by
  simp [handleManualTurn, h]

/-- A state with a turn in flight. -/
def cBusyState : SimState :=
  { apiKeys := ⟨"", ""⟩
  , selectedEnvironment := none
  , localChatHistory := [Message.system 1 "Topic" "09:00"]
  , isProcessing := true
  , isSimulationRunning := false }

/-- Witness for C6 at a concrete in-flight state. -/
theorem C6_witness :
    cBusyState.isProcessing = true ∧
    handleManualTurn cBusyState
        ⟨"Alice", "ChatGPT (OpenAI)", "engineer", "", [], none, []⟩
        ⟨Except.ok "hi", 0, 2, "09:01"⟩
      = (cBusyState, []) :=
  ⟨rfl, C6_manual_turn_noop_when_processing cBusyState
    ⟨"Alice", "ChatGPT (OpenAI)", "engineer", "", [], none, []⟩
    ⟨Except.ok "hi", 0, 2, "09:01"⟩ rfl⟩

/-- The failing input of C2: an OpenAI key is configured, the persona
selects the OpenAI provider, and the provider call comes back non-2xx. -/
def c2Keys : ApiKeys := ⟨"sk-test", ""⟩

def c2Persona : Persona :=
  ⟨"Alice", "ChatGPT (OpenAI)", "engineer", "", [], none, []⟩

def c2Ev : TurnEnv := ⟨Except.error "boom", 0, 42, "10:00"⟩

def c2StartState : SimState := ⟨c2Keys, none, [], false, false⟩

set_option maxRecDepth 8000

/-- C2 (code bug): at the failing input the adapter call fails, the turn
still appends exactly one message whose text carries the provider error
annotation — but the message is tagged `isRealAI = true`, not `false`:
`callRealAI` catches the error internally and returns fallback text, so
the branch of `simulateAIResponse` that would tag the failure
`isRealAI: false` never runs. -/
theorem C2_adapter_failure_tagged_live_true :
    (simulateAIResponse c2Keys [] c2Persona c2Ev).1.liveFlag = some true ∧
    strContains (simulateAIResponse c2Keys [] c2Persona c2Ev).1.content
      "OpenAI API Error: boom" ∧
    (turnStep c2StartState c2Persona c2Ev).1.localChatHistory.length = 1 :=
  ⟨rfl, by decide, rfl⟩

/-- The failing input of C4: an environment whose word limit is 500, with
participants built by the persona-authoring flow (which attaches no
`wordLimit` property to a persona). -/
def c4ChatGPTPersona : Persona :=
  ⟨"Ada", "ChatGPT (OpenAI)", "analyst", "", [], none, []⟩

def c4ClaudePersona : Persona :=
  ⟨"Bert", "Claude (Anthropic)", "critic", "", [], none, []⟩

def c4Env : Environment :=
  { name := "Board"
  , description := ""
  , participants := [c4ChatGPTPersona, c4ClaudePersona]
  , interactionMode := "auto-loop"
  , wordLimit := 500
  , linkedEnvironment := ""
  , startingPrompt := ""
  , humanModerator := false }

/-- C4 (code bug): the adapters read `persona.wordLimit || 200`, and
personas carry no `wordLimit` property, so even for an environment whose
configured word limit is 500 every provider request is sent with
`max_tokens = 200`; the environment's word limit never reaches the
request. -/
theorem C4_max_tokens_always_200 :
    c4Env.wordLimit = 500 ∧
    c4ChatGPTPersona ∈ c4Env.participants ∧
    c4ClaudePersona ∈ c4Env.participants ∧
    (callOpenAI ⟨"sk", "ck"⟩ [] c4ChatGPTPersona (Except.ok "hi")).2.map
        NetRequest.maxTokens = [200] ∧
    (callClaude ⟨"sk", "ck"⟩ [] c4ClaudePersona (Except.ok "hi")).2.map
        NetRequest.maxTokens = [200] :=
  ⟨rfl, by simp [c4Env], by simp [c4Env], rfl, rfl⟩

/-! ### Export round-trip -/

theorem decodeMessage_encodeMessage (m : Message) :
    decodeMessage (encodeMessage m) = some m := by
  cases m <;> rfl

theorem decodeMessages_encode (ms : List Message) :
    decodeMessages (ms.map encodeMessage) = some ms := by
  induction ms with
  | nil => rfl
  | cons m rest ih =>
    simp [decodeMessages, decodeMessage_encodeMessage, ih]

/-- C8: the export document has the shape
`{environment, participants:[name], messages, exportedAt}`, and reading
its message array back yields every one of the M transcript messages, in
their original order, with their original field values. -/
theorem C8_export_round_trip (env : Environment) (history : List Message)
    (t : String) :
    (exportChat env history t).getField "environment"
        = some (Json.str env.name) ∧
    (exportChat env history t).getField "participants"
        = some (Json.arr (env.participants.map (fun p => Json.str p.name))) ∧
    (exportChat env history t).getField "exportedAt"
        = some (Json.str t) ∧
    ∃ arr, (exportChat env history t).getField "messages"
        = some (Json.arr arr) ∧ decodeMessages arr = some history :=
  ⟨rfl, rfl, rfl,
    ⟨history.map encodeMessage, rfl, decodeMessages_encode history⟩⟩

/-! ### Turns for unrecognised model selectors -/

theorem getSimulatedResponse_mem (p : Persona) (r : Nat) :
    getSimulatedResponse p r ∈ simulatedResponses p := by
  have h5 : r % 5 < (simulatedResponses p).length := by
    have := Nat.mod_lt r (show 0 < 5 by decide)
    simpa [simulatedResponses] using this
  rw [getSimulatedResponse, List.getD_eq_getElem _ _ h5]
  exact List.getElem_mem h5

/-- C10 (amended): for a persona whose model selector is neither
provider, the turn issues no network request — both `simulateAIResponse`
and `callRealAI` stay offline — and appends one simulated message tagged
`isRealAI = false`, whose text is drawn from the fixed five-entry filler
set (not every entry of which references the persona). -/
theorem C10_non_matching_llm_simulated (keys : ApiKeys)
    (history : List Message) (persona : Persona) (ev : TurnEnv)
    (h1 : persona.llm ≠ "ChatGPT (OpenAI)")
    (h2 : persona.llm ≠ "Claude (Anthropic)") :
    (simulateAIResponse keys history persona ev).2 = [] ∧
    (simulateAIResponse keys history persona ev).1.liveFlag = some false ∧
    (simulateAIResponse keys history persona ev).1.content
        = getSimulatedResponse persona ev.rand ∧
    getSimulatedResponse persona ev.rand ∈ simulatedResponses persona ∧
    (callRealAI keys persona history ev).2 = [] := by
  refine ⟨?_, ?_, ?_, getSimulatedResponse_mem persona ev.rand, ?_⟩ <;>
    simp [simulateAIResponse, callRealAI, h1, h2, Message.liveFlag,
      Message.content]

/-- The persona of the C10 counterexample: authored with the third model
choice the persona form offers. -/
def cZaraPersona : Persona :=
  ⟨"Zara", "Gemini (Google)", "Qbert", "", [], none, []⟩

/-- Witness for C10 at `cZaraPersona` (both provider keys configured, so
the offline turn is forced by the selector alone). -/
theorem C10_witness :
    (simulateAIResponse ⟨"sk", "ck"⟩ [] cZaraPersona
        ⟨Except.ok "x", 2, 7, "t"⟩).2 = [] ∧
    (simulateAIResponse ⟨"sk", "ck"⟩ [] cZaraPersona
        ⟨Except.ok "x", 2, 7, "t"⟩).1.liveFlag = some false := by
  have h := C10_non_matching_llm_simulated ⟨"sk", "ck"⟩ [] cZaraPersona
    ⟨Except.ok "x", 2, 7, "t"⟩ (by decide) (by decide)
  exact ⟨h.1, h.2.1⟩

/-- C10 counterexample to the claim as stated: at random draw 2 the
appended simulated message references neither the persona's name nor its
role (the turn is still offline and tagged `isRealAI = false`). -/
theorem C10_counterexample_no_persona_reference :
    (simulateAIResponse ⟨"sk", "ck"⟩ [] cZaraPersona
        ⟨Except.ok "x", 2, 7, "t"⟩).2 = [] ∧
    (simulateAIResponse ⟨"sk", "ck"⟩ [] cZaraPersona
        ⟨Except.ok "x", 2, 7, "t"⟩).1.liveFlag = some false ∧
    ¬ strContains (simulateAIResponse ⟨"sk", "ck"⟩ [] cZaraPersona
        ⟨Except.ok "x", 2, 7, "t"⟩).1.content "Zara" ∧
    ¬ strContains (simulateAIResponse ⟨"sk", "ck"⟩ [] cZaraPersona
        ⟨Except.ok "x", 2, 7, "t"⟩).1.content "Qbert" :=
  ⟨rfl, rfl, by decide, by decide⟩

/-! ### Per-turn shape lemmas -/

theorem simulateAIResponse_author (keys : ApiKeys) (history : List Message)
    (persona : Persona) (ev : TurnEnv) :
    (simulateAIResponse keys history persona ev).1.agentAuthor
      = some persona.name := by
  by_cases hA : keys.openai ≠ "" ∧ persona.llm = "ChatGPT (OpenAI)" <;>
    by_cases hB : keys.claude ≠ "" ∧ persona.llm = "Claude (Anthropic)" <;>
      simp [simulateAIResponse, hA, hB, Message.agentAuthor]

theorem callOpenAI_reqs_le (keys : ApiKeys) (messages : List Message)
    (persona : Persona) (net : Except String String) :
    (callOpenAI keys messages persona net).2.length ≤ 1 := by
  by_cases h : keys.openai = ""
  · simp [callOpenAI, h]
  · cases net <;> simp [callOpenAI, h]

theorem callClaude_reqs_le (keys : ApiKeys) (messages : List Message)
    (persona : Persona) (net : Except String String) :
    (callClaude keys messages persona net).2.length ≤ 1 := by
  by_cases h : keys.claude = ""
  · simp [callClaude, h]
  · cases net <;> simp [callClaude, h]

theorem callRealAI_reqs_le (keys : ApiKeys) (persona : Persona)
    (history : List Message) (ev : TurnEnv) :
    (callRealAI keys persona history ev).2.length ≤ 1 := by
  by_cases hA : persona.llm = "ChatGPT (OpenAI)"
  · rcases hnet : (callOpenAI keys history persona ev.net).1 with e | r <;>
      simp [callRealAI, hA, hnet, callOpenAI_reqs_le]
  · by_cases hB : persona.llm = "Claude (Anthropic)"
    · rcases hnet : (callClaude keys history persona ev.net).1 with e | r <;>
        simp [callRealAI, hA, hB, hnet, callClaude_reqs_le]
    · simp [callRealAI, hA, hB]

theorem simulateAIResponse_reqs_le (keys : ApiKeys) (history : List Message)
    (persona : Persona) (ev : TurnEnv) :
    (simulateAIResponse keys history persona ev).2.length ≤ 1 := by
  by_cases hA : keys.openai ≠ "" ∧ persona.llm = "ChatGPT (OpenAI)" <;>
    by_cases hB : keys.claude ≠ "" ∧ persona.llm = "Claude (Anthropic)" <;>
      simp [simulateAIResponse, hA, hB, callRealAI_reqs_le]

/-! ### Append-only structure of the auto-loop -/

theorem autoRound_prefix (keys : ApiKeys) (cancelAfter : Option Nat)
    (evs : Nat → TurnEnv) (ps : List Persona) :
    ∀ (hist : List Message) (done : Nat) (reqs : List NetRequest),
    ∃ tail, (autoRound keys cancelAfter evs ps hist done reqs).1
      = hist ++ tail := by
  induction ps with
  | nil => intro hist done reqs; exact ⟨[], by simp [autoRound]⟩
  | cons p rest ih =>
    intro hist done reqs
    by_cases h1 : flagAt cancelAfter done = true
    · by_cases h2 : flagAt cancelAfter (done + 1) = true
      · obtain ⟨tail, ht⟩ := ih
          (hist ++ [(simulateAIResponse keys hist p (evs done)).1]) (done + 1)
          (reqs ++ (simulateAIResponse keys hist p (evs done)).2)
        refine ⟨(simulateAIResponse keys hist p (evs done)).1 :: tail, ?_⟩
        have hstep : autoRound keys cancelAfter evs (p :: rest) hist done reqs
            = autoRound keys cancelAfter evs rest
                (hist ++ [(simulateAIResponse keys hist p (evs done)).1])
                (done + 1)
                (reqs ++ (simulateAIResponse keys hist p (evs done)).2) := by
          simp [autoRound, h1, h2]
        rw [hstep, ht]
        simp
      · refine ⟨[(simulateAIResponse keys hist p (evs done)).1], ?_⟩
        simp [autoRound, h1, h2]
    · exact ⟨[], by simp [autoRound, h1]⟩

theorem runNextTurn_prefix (keys : ApiKeys) (cancelAfter : Option Nat)
    (evs : Nat → TurnEnv) (ps : List Persona) :
    ∀ (fuel round : Nat) (hist : List Message) (done : Nat)
      (reqs : List NetRequest),
    ∃ tail, (runNextTurn keys cancelAfter evs ps fuel round hist done reqs).1
      = hist ++ tail := by
  intro fuel
  induction fuel with
  | zero => intro round hist done reqs; exact ⟨[], by simp [runNextTurn]⟩
  | succ fuel ih =>
    intro round hist done reqs
    by_cases h1 : flagAt cancelAfter done = true
    · by_cases h2 : maxRounds ≤ round
      · exact ⟨[], by simp [runNextTurn, h1, h2]⟩
      · obtain ⟨tail1, ht1⟩ := autoRound_prefix keys cancelAfter evs ps
          hist done reqs
        by_cases h3 : flagAt cancelAfter
            (autoRound keys cancelAfter evs ps hist done reqs).2.1 = true
            ∧ round + 1 < maxRounds
        · obtain ⟨tail2, ht2⟩ := ih (round + 1)
            (autoRound keys cancelAfter evs ps hist done reqs).1
            (autoRound keys cancelAfter evs ps hist done reqs).2.1
            (autoRound keys cancelAfter evs ps hist done reqs).2.2
          refine ⟨tail1 ++ tail2, ?_⟩
          have hstep : runNextTurn keys cancelAfter evs ps (fuel + 1) round
              hist done reqs
              = runNextTurn keys cancelAfter evs ps fuel (round + 1)
                  (autoRound keys cancelAfter evs ps hist done reqs).1
                  (autoRound keys cancelAfter evs ps hist done reqs).2.1
                  (autoRound keys cancelAfter evs ps hist done reqs).2.2 := by
            rw [runNextTurn]
            simp [h1, h2, h3]
          rw [hstep, ht2, ht1, List.append_assoc]
        · refine ⟨tail1, ?_⟩
          have hstep : runNextTurn keys cancelAfter evs ps (fuel + 1) round
              hist done reqs
              = autoRound keys cancelAfter evs ps hist done reqs := by
            rw [runNextTurn]
            simp only [h1, if_true]
            rw [if_neg h2, if_neg h3]
          rw [hstep]
          exact ht1
    · exact ⟨[], by simp [runNextTurn, h1]⟩

/-- C7: the transcript is append-only.  Every engine operation either
leaves `localChatHistory` unchanged or extends it at the end — a user
message and a manual turn add at most one message, an auto-loop run adds
a suffix, `stopSimulation` never touches it — and it is cleared (reset to
the empty or the single-seed transcript) exactly by `startSimulation` and
by backing out of the simulation view. -/
theorem C7_transcript_append_only (st : SimState) :
    (∀ um msgId ts,
        (handleUserMessage st um msgId ts).localChatHistory
            = st.localChatHistory
        ∨ (handleUserMessage st um msgId ts).localChatHistory
            = st.localChatHistory ++ [Message.user msgId um ts]) ∧
    (∀ persona ev, ∃ tail,
        (handleManualTurn st persona ev).1.localChatHistory
            = st.localChatHistory ++ tail ∧ tail.length ≤ 1) ∧
    (∀ cancelAfter evs, ∃ tail,
        (handleAutoLoop st cancelAfter evs).1.localChatHistory
            = st.localChatHistory ++ tail) ∧
    (stopSimulation st).localChatHistory = st.localChatHistory ∧
    (∀ env msgId ts,
        (startSimulation st env msgId ts).localChatHistory = []
        ∨ ∃ m, (startSimulation st env msgId ts).localChatHistory = [m]) ∧
    (backOut st).localChatHistory = [] := by
  refine ⟨?_, ?_, ?_, rfl, ?_, rfl⟩
  · intro um msgId ts
    by_cases h : um.trim = ""
    · exact Or.inl (by simp [handleUserMessage, h])
    · exact Or.inr (by simp [handleUserMessage, h])
  · intro persona ev
    by_cases h : st.isProcessing = true
    · exact ⟨[], by simp [handleManualTurn, h], by simp⟩
    · exact ⟨[(simulateAIResponse st.apiKeys st.localChatHistory persona ev).1],
        by simp [handleManualTurn, h, turnStep], by simp⟩
  · intro cancelAfter evs
    cases henv : st.selectedEnvironment with
    | none => exact ⟨[], by simp [handleAutoLoop, henv]⟩
    | some env =>
      by_cases h : st.isProcessing = true
      · exact ⟨[], by simp [handleAutoLoop, henv, h]⟩
      · obtain ⟨tail, ht⟩ := runNextTurn_prefix st.apiKeys cancelAfter evs
          env.participants maxRounds 0 st.localChatHistory 0 []
        exact ⟨tail, by simp [handleAutoLoop, henv, h, ht]⟩
  · intro env msgId ts
    by_cases h : env.startingPrompt = ""
    · exact Or.inl (by simp [startSimulation, h])
    · exact Or.inr ⟨Message.system msgId env.startingPrompt ts,
        by simp [startSimulation, h]⟩

/-! ### The uninterrupted auto-loop -/

theorem autoRound_none (keys : ApiKeys) (evs : Nat → TurnEnv)
    (ps : List Persona) :
    ∀ (hist : List Message) (done : Nat) (reqs : List NetRequest),
    ∃ msgs rs,
      (autoRound keys none evs ps hist done reqs).1 = hist ++ msgs ∧
      (autoRound keys none evs ps hist done reqs).2.1 = done + ps.length ∧
      (autoRound keys none evs ps hist done reqs).2.2 = reqs ++ rs ∧
      msgs.map Message.agentAuthor = ps.map (fun p => some p.name) ∧
      rs.length ≤ ps.length := by
  induction ps with
  | nil =>
    intro hist done reqs
    exact ⟨[], [], by simp [autoRound], by simp [autoRound],
      by simp [autoRound], by simp, by simp⟩
  | cons p rest ih =>
    intro hist done reqs
    obtain ⟨msgs, rs, b1, b2, b3, b4, b5⟩ := ih
      (hist ++ [(simulateAIResponse keys hist p (evs done)).1]) (done + 1)
      (reqs ++ (simulateAIResponse keys hist p (evs done)).2)
    have hstep : autoRound keys none evs (p :: rest) hist done reqs
        = autoRound keys none evs rest
            (hist ++ [(simulateAIResponse keys hist p (evs done)).1])
            (done + 1)
            (reqs ++ (simulateAIResponse keys hist p (evs done)).2) := by
      simp [autoRound, flagAt]
    refine ⟨(simulateAIResponse keys hist p (evs done)).1 :: msgs,
      (simulateAIResponse keys hist p (evs done)).2 ++ rs, ?_, ?_, ?_, ?_, ?_⟩
    · rw [hstep, b1]; simp
    · rw [hstep, b2]; simp only [List.length_cons]; omega
    · rw [hstep, b3]; simp
    · simp [b4, simulateAIResponse_author]
    · have hr := simulateAIResponse_reqs_le keys hist p (evs done)
      simp only [List.length_append, List.length_cons]
      omega

theorem runNextTurn_none (keys : ApiKeys) (evs : Nat → TurnEnv)
    (ps : List Persona) :
    ∀ (fuel round : Nat) (hist : List Message) (done : Nat)
      (reqs : List NetRequest), maxRounds ≤ round + fuel →
    ∃ msgs rs,
      (runNextTurn keys none evs ps fuel round hist done reqs).1
          = hist ++ msgs ∧
      (runNextTurn keys none evs ps fuel round hist done reqs).2.1
          = done + (maxRounds - round) * ps.length ∧
      (runNextTurn keys none evs ps fuel round hist done reqs).2.2
          = reqs ++ rs ∧
      msgs.map Message.agentAuthor
          = (List.replicate (maxRounds - round)
              (ps.map (fun p => some p.name))).flatten ∧
      rs.length ≤ (maxRounds - round) * ps.length := by
  intro fuel
  induction fuel with
  | zero =>
    intro round hist done reqs hle
    have h0 : maxRounds - round = 0 := by omega
    exact ⟨[], [], by simp [runNextTurn], by simp [runNextTurn, h0],
      by simp [runNextTurn], by simp [h0], by simp [h0]⟩
  | succ fuel ih =>
    intro round hist done reqs hle
    by_cases h2 : maxRounds ≤ round
    · have h0 : maxRounds - round = 0 := by omega
      exact ⟨[], [], by simp [runNextTurn, flagAt, h2],
        by simp [runNextTurn, flagAt, h2, h0],
        by simp [runNextTurn, flagAt, h2], by simp [h0], by simp [h0]⟩
    · obtain ⟨msgs1, rs1, a1, a2, a3, a4, a5⟩ :=
        autoRound_none keys evs ps hist done reqs
      have hrep : maxRounds - round = (maxRounds - (round + 1)) + 1 := by omega
      have hexp : (maxRounds - round) * ps.length
          = ps.length + (maxRounds - (round + 1)) * ps.length := by
        rw [hrep, Nat.succ_mul]; omega
      by_cases h3 : round + 1 < maxRounds
      · have hstep : runNextTurn keys none evs ps (fuel + 1) round hist done reqs
            = runNextTurn keys none evs ps fuel (round + 1)
                (autoRound keys none evs ps hist done reqs).1
                (autoRound keys none evs ps hist done reqs).2.1
                (autoRound keys none evs ps hist done reqs).2.2 := by
          rw [runNextTurn]; simp [flagAt, h2, h3]
        obtain ⟨msgs2, rs2, c1, c2, c3, c4, c5⟩ := ih (round + 1)
          (autoRound keys none evs ps hist done reqs).1
          (autoRound keys none evs ps hist done reqs).2.1
          (autoRound keys none evs ps hist done reqs).2.2 (by omega)
        refine ⟨msgs1 ++ msgs2, rs1 ++ rs2, ?_, ?_, ?_, ?_, ?_⟩
        · rw [hstep, c1, a1]; simp
        · rw [hstep, c2, a2, hexp]; omega
        · rw [hstep, c3, a3]; simp
        · rw [hrep, List.replicate_succ, List.flatten_cons]
          simp [a4, c4]
        · rw [hexp]
          simp only [List.length_append]
          omega
      · have hmr : maxRounds - round = 1 := by omega
        have hstep : runNextTurn keys none evs ps (fuel + 1) round hist done reqs
            = autoRound keys none evs ps hist done reqs := by
          rw [runNextTurn]; simp [flagAt, h2, h3]
        refine ⟨msgs1, rs1, ?_, ?_, ?_, ?_, ?_⟩
        · rw [hstep]; exact a1
        · rw [hstep, a2, hmr]; omega
        · rw [hstep]; exact a3
        · rw [hmr]; simpa using a4
        · rw [hmr]; simpa using a5

theorem length_flatten_replicate {α : Type} (n : Nat) (l : List α) :
    (List.replicate n l).flatten.length = n * l.length := by
  induction n with
  | zero => simp
  | succ n ih => rw [List.replicate_succ, List.flatten_cons]
                 simp [ih, Nat.succ_mul]
                 omega

/-- C1: starting a simulation and letting the auto-loop run uninterrupted
(the run flag never withdrawn) appends exactly
`maxRounds * N` agent messages to the transcript, authored in the
environment's stored participant order repeated `maxRounds` times, on top
of a seed transcript of at most one (system) message. -/
theorem C1_auto_loop_appends_all_rounds (st : SimState) (env : Environment)
    (msgId : Nat) (ts : String) (evs : Nat → TurnEnv)
    (hp : st.isProcessing = false) :
    ∃ msgs,
      (handleAutoLoop (startSimulation st env msgId ts) none
          evs).1.localChatHistory
        = (startSimulation st env msgId ts).localChatHistory ++ msgs ∧
      msgs.length = maxRounds * env.participants.length ∧
      msgs.map Message.agentAuthor
        = (List.replicate maxRounds
            (env.participants.map (fun p => some p.name))).flatten ∧
      (startSimulation st env msgId ts).localChatHistory.length ≤ 1 ∧
      (∀ m ∈ (startSimulation st env msgId ts).localChatHistory,
          m.isSystemMsg = true) := by
  obtain ⟨msgs, rs, h1, h2, h3, h4, h5⟩ := runNextTurn_none st.apiKeys evs
    env.participants maxRounds 0
    (startSimulation st env msgId ts).localChatHistory 0 [] (by omega)
  have hloop : (handleAutoLoop (startSimulation st env msgId ts) none
      evs).1.localChatHistory
      = (runNextTurn st.apiKeys none evs env.participants maxRounds 0
          (startSimulation st env msgId ts).localChatHistory 0 []).1 := by
    simp [handleAutoLoop, startSimulation, hp]
  refine ⟨msgs, ?_, ?_, ?_, ?_, ?_⟩
  · rw [hloop]; exact h1
  · have := congrArg List.length h4
    simpa [length_flatten_replicate] using this
  · simpa using h4
  · by_cases h : env.startingPrompt = "" <;> simp [startSimulation, h]
  · intro m hm
    by_cases h : env.startingPrompt = ""
    · simp [startSimulation, h] at hm
    · simp [startSimulation, h] at hm
      rw [hm]; rfl

/-- A two-participant environment for the C1/C3 witnesses. -/
def cDuoEnv : Environment :=
  { name := "Duo"
  , description := ""
  , participants :=
      [⟨"Ann", "Gemini (Google)", "poet", "", [], none, []⟩,
       ⟨"Ben", "Gemini (Google)", "critic", "", [], none, []⟩]
  , interactionMode := "auto-loop"
  , wordLimit := 200
  , linkedEnvironment := ""
  , startingPrompt := "Discuss."
  , humanModerator := false }

/-- The idle state the C1/C3 witnesses start from. -/
def cIdleState : SimState := ⟨⟨"", ""⟩, none, [], false, false⟩

/-- Witness for C1: a concrete uninterrupted run over `cDuoEnv`. -/
theorem C1_witness :
    cIdleState.isProcessing = false ∧
    ∃ msgs,
      (handleAutoLoop (startSimulation cIdleState cDuoEnv 1 "t") none
          (fun _ => ⟨Except.ok "x", 0, 2, "t"⟩)).1.localChatHistory
        = (startSimulation cIdleState cDuoEnv 1 "t").localChatHistory
            ++ msgs ∧
      msgs.length = maxRounds * cDuoEnv.participants.length ∧
      msgs.map Message.agentAuthor
        = (List.replicate maxRounds
            (cDuoEnv.participants.map (fun p => some p.name))).flatten ∧
      (startSimulation cIdleState cDuoEnv 1 "t").localChatHistory.length
          ≤ 1 ∧
      (∀ m ∈ (startSimulation cIdleState cDuoEnv 1 "t").localChatHistory,
          m.isSystemMsg = true) :=
  ⟨rfl, C1_auto_loop_appends_all_rounds cIdleState cDuoEnv 1 "t"
    (fun _ => ⟨Except.ok "x", 0, 2, "t"⟩) rfl⟩

/-! ### The cancelled auto-loop -/

theorem autoRound_some (keys : ApiKeys) (evs : Nat → TurnEnv) (c : Nat)
    (ps : List Persona) :
    ∀ (hist : List Message) (done : Nat) (reqs : List NetRequest),
    ∃ msgs rs,
      (autoRound keys (some c) evs ps hist done reqs).1 = hist ++ msgs ∧
      (autoRound keys (some c) evs ps hist done reqs).2.1
          = done + msgs.length ∧
      (autoRound keys (some c) evs ps hist done reqs).2.2 = reqs ++ rs ∧
      msgs.map Message.agentAuthor
          = (ps.map (fun p => some p.name)).take (c - done) ∧
      msgs.length = min (c - done) ps.length ∧
      rs.length ≤ msgs.length := by
  induction ps with
  | nil =>
    intro hist done reqs
    exact ⟨[], [], by simp [autoRound], by simp [autoRound],
      by simp [autoRound], by simp, by simp, by simp⟩
  | cons p rest ih =>
    intro hist done reqs
    by_cases h1 : done < c
    · have hf : flagAt (some c) done = true := by simp [flagAt]; omega
      by_cases h2 : done + 1 < c
      · have hf2 : flagAt (some c) (done + 1) = true := by
          simp [flagAt]; omega
        obtain ⟨msgs, rs, b1, b2, b3, b4, b5, b6⟩ := ih
          (hist ++ [(simulateAIResponse keys hist p (evs done)).1]) (done + 1)
          (reqs ++ (simulateAIResponse keys hist p (evs done)).2)
        have hstep : autoRound keys (some c) evs (p :: rest) hist done reqs
            = autoRound keys (some c) evs rest
                (hist ++ [(simulateAIResponse keys hist p (evs done)).1])
                (done + 1)
                (reqs ++ (simulateAIResponse keys hist p (evs done)).2) := by
          simp [autoRound, hf, hf2]
        have hsub : c - done = (c - (done + 1)) + 1 := by omega
        refine ⟨(simulateAIResponse keys hist p (evs done)).1 :: msgs,
          (simulateAIResponse keys hist p (evs done)).2 ++ rs,
          ?_, ?_, ?_, ?_, ?_, ?_⟩
        · rw [hstep, b1]; simp
        · rw [hstep, b2]; simp only [List.length_cons]; omega
        · rw [hstep, b3]; simp
        · rw [hsub]
          simp [List.take_succ_cons, b4, simulateAIResponse_author]
        · simp only [List.length_cons, List.length_map] at b5 ⊢
          simp only [b5]
          omega
        · have hr := simulateAIResponse_reqs_le keys hist p (evs done)
          simp only [List.length_append, List.length_cons]
          omega
      · have hf2 : flagAt (some c) (done + 1) = false := by
          simp [flagAt]; omega
        have hc1 : c - done = 1 := by omega
        have hstep : autoRound keys (some c) evs (p :: rest) hist done reqs
            = (hist ++ [(simulateAIResponse keys hist p (evs done)).1],
               done + 1,
               reqs ++ (simulateAIResponse keys hist p (evs done)).2) := by
          simp [autoRound, hf, hf2]
        refine ⟨[(simulateAIResponse keys hist p (evs done)).1],
          (simulateAIResponse keys hist p (evs done)).2,
          by rw [hstep], by rw [hstep]; simp, by rw [hstep],
          ?_, by simp [hc1], ?_⟩
        · rw [hc1]
          simp [simulateAIResponse_author]
        · simpa using simulateAIResponse_reqs_le keys hist p (evs done)
    · have hf : flagAt (some c) done = false := by simp [flagAt]; omega
      have hc0 : c - done = 0 := by omega
      exact ⟨[], [], by simp [autoRound, hf], by simp [autoRound, hf],
        by simp [autoRound, hf], by simp [hc0], by simp [hc0], by simp⟩

theorem runNextTurn_some (keys : ApiKeys) (evs : Nat → TurnEnv) (c : Nat)
    (ps : List Persona) :
    ∀ (fuel round : Nat) (hist : List Message) (done : Nat)
      (reqs : List NetRequest), maxRounds ≤ round + fuel →
    ∃ msgs rs,
      (runNextTurn keys (some c) evs ps fuel round hist done reqs).1
          = hist ++ msgs ∧
      (runNextTurn keys (some c) evs ps fuel round hist done reqs).2.1
          = done + msgs.length ∧
      (runNextTurn keys (some c) evs ps fuel round hist done reqs).2.2
          = reqs ++ rs ∧
      msgs.map Message.agentAuthor
          = ((List.replicate (maxRounds - round)
              (ps.map (fun p => some p.name))).flatten).take (c - done) ∧
      msgs.length = min (c - done) ((maxRounds - round) * ps.length) ∧
      rs.length ≤ msgs.length := by
  intro fuel
  induction fuel with
  | zero =>
    intro round hist done reqs hle
    have h0 : maxRounds - round = 0 := by omega
    exact ⟨[], [], by simp [runNextTurn], by simp [runNextTurn],
      by simp [runNextTurn], by simp [h0], by simp [h0], by simp⟩
  | succ fuel ih =>
    intro round hist done reqs hle
    by_cases h1 : done < c
    · have hf : flagAt (some c) done = true := by simp [flagAt]; omega
      by_cases h2 : maxRounds ≤ round
      · have h0 : maxRounds - round = 0 := by omega
        exact ⟨[], [], by simp [runNextTurn, hf, h2],
          by simp [runNextTurn, hf, h2], by simp [runNextTurn, hf, h2],
          by simp [h0], by simp [h0], by simp⟩
      · obtain ⟨msgs1, rs1, a1, a2, a3, a4, a5, a6⟩ :=
          autoRound_some keys evs c ps hist done reqs
        have hNames : (ps.map (fun p => some p.name)).length = ps.length :=
          List.length_map ps _
        have hrep : maxRounds - round = (maxRounds - (round + 1)) + 1 := by
          omega
        have hexp : (maxRounds - round) * ps.length
            = ps.length + (maxRounds - (round + 1)) * ps.length := by
          rw [hrep, Nat.succ_mul]; omega
        by_cases hB : round + 1 < maxRounds
        · by_cases hA : done + msgs1.length < c
          · have hft : flagAt (some c)
                ((autoRound keys (some c) evs ps hist done reqs).2.1)
                = true := by
              rw [a2]; simp [flagAt]; omega
            have hstep : runNextTurn keys (some c) evs ps (fuel + 1) round
                hist done reqs
                = runNextTurn keys (some c) evs ps fuel (round + 1)
                    (autoRound keys (some c) evs ps hist done reqs).1
                    (autoRound keys (some c) evs ps hist done reqs).2.1
                    (autoRound keys (some c) evs ps hist done reqs).2.2 := by
              rw [runNextTurn]; simp [hf, h2, hft, hB]
            obtain ⟨msgs2, rs2, c1, c2, c3, c4, c5, c6⟩ := ih (round + 1)
              (autoRound keys (some c) evs ps hist done reqs).1
              (autoRound keys (some c) evs ps hist done reqs).2.1
              (autoRound keys (some c) evs ps hist done reqs).2.2 (by omega)
            rw [a2] at c4 c5
            have haN : msgs1.length = ps.length := by omega
            refine ⟨msgs1 ++ msgs2, rs1 ++ rs2, ?_, ?_, ?_, ?_, ?_, ?_⟩
            · rw [hstep, c1, a1]; simp
            · rw [hstep, c2, a2]
              simp only [List.length_append]
              omega
            · rw [hstep, c3, a3]; simp
            · rw [List.map_append, a4, c4, hrep, List.replicate_succ,
                List.flatten_cons, List.take_append_eq_append_take, hNames]
              have htake : (ps.map (fun p => some p.name)).take (c - done)
                  = ps.map (fun p => some p.name) :=
                List.take_of_length_le (by omega)
              rw [htake]
              have harg : c - (done + msgs1.length) = c - done - ps.length := by
                omega
              rw [harg]
            · simp only [List.length_append]
              rw [a5, c5, hexp]
              omega
            · simp only [List.length_append]
              omega
          · have hft : flagAt (some c)
                ((autoRound keys (some c) evs ps hist done reqs).2.1)
                = false := by
              rw [a2]; simp [flagAt]; omega
            have hstep : runNextTurn keys (some c) evs ps (fuel + 1) round
                hist done reqs
                = autoRound keys (some c) evs ps hist done reqs := by
              rw [runNextTurn]; simp [hf, h2, hft]
            have hcd : c - done ≤ ps.length := by omega
            refine ⟨msgs1, rs1, by rw [hstep]; exact a1,
              by rw [hstep]; exact a2, by rw [hstep]; exact a3, ?_, ?_, a6⟩
            · rw [a4, hrep, List.replicate_succ, List.flatten_cons,
                List.take_append_eq_append_take, hNames]
              have h0 : c - done - ps.length = 0 := by omega
              simp [h0]
            · have hle : ps.length ≤ (maxRounds - round) * ps.length := by
                rw [hexp]; omega
              omega
        · have hmr : maxRounds - round = 1 := by omega
          have hstep : runNextTurn keys (some c) evs ps (fuel + 1) round
              hist done reqs
              = autoRound keys (some c) evs ps hist done reqs := by
            rw [runNextTurn]; simp [hf, h2, hB]
          refine ⟨msgs1, rs1, by rw [hstep]; exact a1,
            by rw [hstep]; exact a2, by rw [hstep]; exact a3, ?_, ?_, a6⟩
          · rw [hmr]; simpa using a4
          · rw [hmr]; simpa using a5
    · have hf : flagAt (some c) done = false := by simp [flagAt]; omega
      have hc0 : c - done = 0 := by omega
      exact ⟨[], [], by simp [runNextTurn, hf], by simp [runNextTurn, hf],
        by simp [runNextTurn, hf], by simp [hc0], by simp [hc0], by simp⟩

/-- C3: if the stop request takes effect after `k` turns of round `j`
(the run-flag polls before the round, before each turn and after each
turn read false from that moment on), the run appends exactly the
`j·N + k` agent messages taken so far — the `j` completed rounds plus the
first `k` turns of round `j`, in participant order — issues no adapter
request beyond those turns, and ends with the run flag cleared
(Stopped). -/
theorem C3_cancel_between_turns (st : SimState) (env : Environment)
    (msgId : Nat) (ts : String) (evs : Nat → TurnEnv) (j k : Nat)
    (hp : st.isProcessing = false) (hj : j < maxRounds)
    (hk : k < env.participants.length) :
    ∃ msgs,
      (handleAutoLoop (startSimulation st env msgId ts)
          (some (j * env.participants.length + k)) evs).1.localChatHistory
        = (startSimulation st env msgId ts).localChatHistory ++ msgs ∧
      msgs.length = j * env.participants.length + k ∧
      msgs.map Message.agentAuthor
        = ((List.replicate maxRounds
            (env.participants.map (fun p => some p.name))).flatten).take
            (j * env.participants.length + k) ∧
      (handleAutoLoop (startSimulation st env msgId ts)
          (some (j * env.participants.length + k)) evs).2.length
        ≤ j * env.participants.length + k ∧
      (handleAutoLoop (startSimulation st env msgId ts)
          (some (j * env.participants.length + k)) evs).1.isSimulationRunning
        = false := by
  obtain ⟨msgs, rs, h1, h2, h3, h4, h5, h6⟩ := runNextTurn_some st.apiKeys
    evs (j * env.participants.length + k) env.participants maxRounds 0
    (startSimulation st env msgId ts).localChatHistory 0 [] (by omega)
  have hcv : j * env.participants.length + k
      < maxRounds * env.participants.length := by
    calc j * env.participants.length + k
        < j * env.participants.length + env.participants.length := by omega
      _ = (j + 1) * env.participants.length := (Nat.succ_mul _ _).symm
      _ ≤ maxRounds * env.participants.length :=
          Nat.mul_le_mul_right _ hj
  have hloop : (handleAutoLoop (startSimulation st env msgId ts)
      (some (j * env.participants.length + k)) evs).1.localChatHistory
      = (runNextTurn st.apiKeys (some (j * env.participants.length + k))
          evs env.participants maxRounds 0
          (startSimulation st env msgId ts).localChatHistory 0 []).1 := by
    simp [handleAutoLoop, startSimulation, hp]
  have hreqs : (handleAutoLoop (startSimulation st env msgId ts)
      (some (j * env.participants.length + k)) evs).2
      = (runNextTurn st.apiKeys (some (j * env.participants.length + k))
          evs env.participants maxRounds 0
          (startSimulation st env msgId ts).localChatHistory 0 []).2.2 := by
    simp [handleAutoLoop, startSimulation, hp]
  have hlen : msgs.length = j * env.participants.length + k := by
    simp only [Nat.sub_zero] at h5
    omega
  refine ⟨msgs, ?_, hlen, ?_, ?_, ?_⟩
  · rw [hloop]; exact h1
  · simpa using h4
  · rw [hreqs, h3]
    simpa using le_trans h6 (le_of_eq hlen)
  · simp [handleAutoLoop, startSimulation, hp]

/-- Witness for C3: cancelling the `cDuoEnv` run after the first turn of
round 1 (three completed turns in total). -/
theorem C3_witness :
    cIdleState.isProcessing = false ∧ 1 < maxRounds ∧
    1 < cDuoEnv.participants.length ∧
    ∃ msgs,
      (handleAutoLoop (startSimulation cIdleState cDuoEnv 1 "t")
          (some (1 * cDuoEnv.participants.length + 1))
          (fun _ => ⟨Except.ok "x", 0, 2, "t"⟩)).1.localChatHistory
        = (startSimulation cIdleState cDuoEnv 1 "t").localChatHistory
            ++ msgs ∧
      msgs.length = 1 * cDuoEnv.participants.length + 1 ∧
      msgs.map Message.agentAuthor
        = ((List.replicate maxRounds
            (cDuoEnv.participants.map (fun p => some p.name))).flatten).take
            (1 * cDuoEnv.participants.length + 1) ∧
      (handleAutoLoop (startSimulation cIdleState cDuoEnv 1 "t")
          (some (1 * cDuoEnv.participants.length + 1))
          (fun _ => ⟨Except.ok "x", 0, 2, "t"⟩)).2.length
        ≤ 1 * cDuoEnv.participants.length + 1 ∧
      (handleAutoLoop (startSimulation cIdleState cDuoEnv 1 "t")
          (some (1 * cDuoEnv.participants.length + 1))
          (fun _ => ⟨Except.ok "x", 0, 2, "t"⟩)).1.isSimulationRunning
        = false :=
  ⟨rfl, by decide, by decide,
    C3_cancel_between_turns cIdleState cDuoEnv 1 "t"
      (fun _ => ⟨Except.ok "x", 0, 2, "t"⟩) 1 1 rfl (by decide) (by decide)⟩
